import Mathlib

/-!
Verification of the YouTube transcript API server (`src/index.ts` and the
near-duplicate variant in `src/unnamed/part_000`).

The TypeScript source is shallowly embedded: JavaScript strings become
`String` (operated on through their `List Char` data), JavaScript numbers
produced by `parseFloat` on decimal strings become `ℚ`, optional object
fields become `Option`, and the request handler becomes a pure function of
the outcomes of its two effectful fetch phases (`Except` values standing
for "returned" vs "threw").
-/

namespace YTA

/-! ### String helpers

JavaScript `String.prototype.replace` with a global literal pattern scans
left to right, replacing non-overlapping occurrences and resuming the scan
after each replacement.  We embed it on `List Char` with an explicit fuel
argument (the length of the subject string), which is enough fuel because
every step consumes at least one character. -/

/-- Boolean prefix test on character lists. -/
def isPrefixL : List Char → List Char → Bool
  | [], _ => true
  | _ :: _, [] => false
  | a :: as, b :: bs => a == b && isPrefixL as bs

/-- Boolean substring-occurrence test on character lists. -/
def occursIn (pat : List Char) : List Char → Bool
  | [] => pat.isEmpty
  | c :: rest => isPrefixL pat (c :: rest) || occursIn pat rest

/-- Fuel-indexed global replace: one unit of fuel is spent per step, and each
step consumes at least one character of the subject. -/
def replaceAllFuel (pat repl : List Char) : Nat → List Char → List Char
  | _, [] => []
  | 0, s => s
  | fuel + 1, c :: rest =>
    if isPrefixL pat (c :: rest) then
      repl ++ replaceAllFuel pat repl fuel (List.drop pat.length (c :: rest))
    else
      c :: replaceAllFuel pat repl fuel rest

/-- Embedding of the JavaScript global string replace `s.replace(pat-as-global-regex, repl)`
for a literal pattern. -/
def jsReplaceAll (s pat repl : String) : String :=
  String.mk (replaceAllFuel pat.data repl.data s.data.length s.data)

/-- The empty string. -/
def strEmpty : String := ""

/-- Entity source pattern for the ampersand. -/
def entAmp : String := "&amp;"

/-- Replacement for the ampersand entity. -/
def chAmp : String := "&"

/-- Entity source pattern for less-than. -/
def entLt : String := "&lt;"

/-- Replacement for the less-than entity. -/
def chLt : String := "<"

/-- Entity source pattern for greater-than. -/
def entGt : String := "&gt;"

/-- Replacement for the greater-than entity. -/
def chGt : String := ">"

/-- Entity source pattern for the double quote. -/
def entQuot : String := "&quot;"

/-- Replacement for the double-quote entity. -/
def chQuot : String := "\""

/-- Entity source pattern for the apostrophe. -/
def entApos : String := "&#39;"

/-- Replacement for the apostrophe entity. -/
def chApos : String := "'"

/-- Entity source pattern for the non-breaking space. -/
def entNbsp : String := "&nbsp;"

/-- Replacement for the non-breaking-space entity. -/
def chSpace : String := " "

/-- Embedding of `decodeHtmlEntities` from `src/index.ts` lines 62-71.
The JavaScript parameter may be a string, `undefined` or `null`; the two
non-string cases are `none`.  The guard `if (!text) return ''` also
triggers on the empty string, which we reproduce faithfully. -/
def decodeHtmlEntities : Option String → String
  | none => strEmpty
  | some s =>
    if s = strEmpty then strEmpty
    else
      jsReplaceAll
        (jsReplaceAll
          (jsReplaceAll
            (jsReplaceAll
              (jsReplaceAll
                (jsReplaceAll s entAmp chAmp)
                entLt chLt)
              entGt chGt)
            entQuot chQuot)
          entApos chApos)
        entNbsp chSpace

/-- The six-replacement chain by itself, for stating that the early empty
guard is semantically transparent. -/
def decodeChain (s : String) : String :=
  jsReplaceAll
    (jsReplaceAll
      (jsReplaceAll
        (jsReplaceAll
          (jsReplaceAll
            (jsReplaceAll s entAmp chAmp)
            entLt chLt)
          entGt chGt)
        entQuot chQuot)
      entApos chApos)
    entNbsp chSpace

/-! ### Lemmas about replacement on occurrence-free strings -/

theorem isPrefixL_false_of_occursIn_false (pat : List Char) (c : Char) (rest : List Char)
    (h : occursIn pat (c :: rest) = false) : isPrefixL pat (c :: rest) = false := by
  unfold occursIn at h
  exact (Bool.or_eq_false_iff.mp h).1

theorem occursIn_tail_false (pat : List Char) (c : Char) (rest : List Char)
    (h : occursIn pat (c :: rest) = false) : occursIn pat rest = false := by
  unfold occursIn at h
  exact (Bool.or_eq_false_iff.mp h).2

theorem replaceAllFuel_of_not_occurs (pat repl : List Char) :
    ∀ (fuel : Nat) (s : List Char), occursIn pat s = false →
      replaceAllFuel pat repl fuel s = s := by
  intro fuel
  induction fuel with
  | zero =>
    intro s _
    cases s with
    | nil => rfl
    | cons c rest => rfl
  | succ n ih =>
    intro s h
    cases s with
    | nil => rfl
    | cons c rest =>
      unfold replaceAllFuel
      rw [isPrefixL_false_of_occursIn_false pat c rest h]
      simp only [Bool.false_eq_true, if_false]
      rw [ih rest (occursIn_tail_false pat c rest h)]

theorem jsReplaceAll_of_not_occurs (s pat repl : String)
    (h : occursIn pat.data s.data = false) : jsReplaceAll s pat repl = s := by
  unfold jsReplaceAll
  rw [replaceAllFuel_of_not_occurs pat.data repl.data s.data.length s.data h]

/-! ### Claim C6: the decoder is the ordered six-replacement chain -/

/-- Concrete input of the spec example for the decoder. -/
def c6Input : String := "A &amp; B &lt;tag&gt; &quot;q&quot; it&#39;s&nbsp;here"

/-- Concrete expected output of the spec example for the decoder. -/
def c6Output : String := "A & B <tag> \"q\" it's here"

/-- C6: `decodeHtmlEntities` maps null/undefined input to the empty string,
equals the sequential application, in the stated order, of the six global
replacements, and on the spec's concrete example it produces the expected
decoded text. -/
theorem decodeHtmlEntities_is_ordered_chain :
    decodeHtmlEntities none = strEmpty ∧
    (∀ s : String, decodeHtmlEntities (some s) = decodeChain s) ∧
    decodeHtmlEntities (some c6Input) = c6Output := by
  refine ⟨rfl, ?_, by decide⟩
  intro s
  simp only [decodeHtmlEntities, decodeChain]
  by_cases hs : s = strEmpty
  · subst hs
    decide
  · rw [if_neg hs]

/-! ### Claim C10: double-escaped entities decode twice in one call -/

/-- Doubly escaped less-than entity. -/
def c10Input : String := "&amp;lt;"

/-- C10: because the ampersand replacement runs first, the doubly escaped
input decodes all the way to a bare less-than sign in one call, rather than
to the singly escaped entity. -/
theorem decode_double_escaped_lt :
    decodeHtmlEntities (some c10Input) = chLt ∧ ¬ (chLt = entLt) := by
  decide

/-! ### Claim C7: occurrence-free strings pass through; idempotence fails -/

/-- C7 (amended): if a string contains no occurrence of any of the six
recognized entity sequences, the decoder returns it unchanged. -/
theorem decode_id_of_no_entities (s : String)
    (h1 : occursIn entAmp.data s.data = false)
    (h2 : occursIn entLt.data s.data = false)
    (h3 : occursIn entGt.data s.data = false)
    (h4 : occursIn entQuot.data s.data = false)
    (h5 : occursIn entNbsp.data s.data = false)
    (h6 : occursIn entApos.data s.data = false) :
    decodeHtmlEntities (some s) = s := by
  simp only [decodeHtmlEntities]
  by_cases hs : s = strEmpty
  · rw [if_pos hs, hs]
  · rw [if_neg hs]
    rw [jsReplaceAll_of_not_occurs s entAmp chAmp h1]
    rw [jsReplaceAll_of_not_occurs s entLt chLt h2]
    rw [jsReplaceAll_of_not_occurs s entGt chGt h3]
    rw [jsReplaceAll_of_not_occurs s entQuot chQuot h4]
    rw [jsReplaceAll_of_not_occurs s entApos chApos h6]
    rw [jsReplaceAll_of_not_occurs s entNbsp chSpace h5]

/-- Entity-free sample text (it contains a bare ampersand and angle-ish
words but none of the six entity sequences). -/
def plainSample : String := "fish & chips are < great >"

/-- C7 witness: applying the amended theorem at a concrete entity-free string. -/
theorem decode_id_of_no_entities_witness :
    occursIn entAmp.data plainSample.data = false ∧
    decodeHtmlEntities (some plainSample) = plainSample :=
  ⟨by decide,
   decode_id_of_no_entities plainSample (by decide) (by decide) (by decide)
     (by decide) (by decide) (by decide)⟩

/-- Doubly-doubly escaped input whose decode still contains an entity. -/
def c7Double : String := "&amp;amp;lt;"

/-- C7 counterexample: the decoder is not idempotent on already-decoded
text, because decoded output can itself still contain entity sequences. -/
theorem decode_not_idempotent :
    ¬ (decodeHtmlEntities (some (decodeHtmlEntities (some c7Double))) =
       decodeHtmlEntities (some c7Double)) := by
  decide

/-! ### URL model and the ID extractor

The source calls the WHATWG `new URL(...)` constructor, an external
platform collaborator, and reads only `hostname`, `pathname` and
`searchParams.get('v')`.  We model the fragment of the WHATWG parser
exercised here: absolute `scheme://host/path?query#fragment` references
with an alphabetic scheme, a non-empty host written in lower case, and a
query using `&`-separated `key=value` pairs without percent- or
plus-encoding.  Strings with no `://` separator, an empty or non-alphabetic
scheme, or an empty host are parse failures (`new URL` throws there for
the http-style references this server receives). -/

/-- Forward slash. -/
def slashC : Char := '/'

/-- Question mark. -/
def questC : Char := '?'

/-- Hash sign. -/
def hashC : Char := '#'

/-- Ampersand character. -/
def ampC : Char := '&'

/-- Equals sign. -/
def eqC : Char := '='

/-- Scheme separator of an absolute URL reference. -/
def schemeSep : String := "://"

/-- Split a character list at the first occurrence of a pattern, returning
the part before it and the part after it. -/
def breakOnSub (pat : List Char) : List Char → Option (List Char × List Char)
  | [] => if pat.isEmpty then some ([], []) else none
  | c :: rest =>
    if isPrefixL pat (c :: rest) then some ([], List.drop pat.length (c :: rest))
    else
      match breakOnSub pat rest with
      | some p => some (c :: p.1, p.2)
      | none => none

/-- Split a character list on a separator character. -/
def splitOnChar (sep : Char) : List Char → List (List Char)
  | [] => [[]]
  | c :: rest =>
    match splitOnChar sep rest with
    | [] => [[]]
    | g :: gs => if c == sep then [] :: g :: gs else (c :: g) :: gs

/-- The components of a parsed URL that the source reads. -/
structure URLParts where
  hostname : String
  pathname : String
  search : String
deriving DecidableEq

/-- The root path, the `pathname` of a host-only URL. -/
def strSlash : String := "/"

/-- Model of the `new URL` constructor restricted to the absolute
references this server receives (see the section comment above). -/
def parseURL (s : String) : Option URLParts :=
  match breakOnSub schemeSep.data s.data with
  | none => none
  | some sp =>
    if sp.1.isEmpty || !(sp.1.all Char.isAlpha) then none
    else
      let host := sp.2.takeWhile (fun c => !(c == slashC || c == questC || c == hashC))
      let afterHost := sp.2.drop host.length
      if host.isEmpty then none
      else
        let path := afterHost.takeWhile (fun c => !(c == questC || c == hashC))
        let afterPath := afterHost.drop path.length
        let searchPart : List Char :=
          match afterPath with
          | [] => []
          | c :: qs => if c == questC then qs.takeWhile (fun c2 => !(c2 == hashC)) else []
        some { hostname := String.mk host,
               pathname := if path.isEmpty then strSlash else String.mk path,
               search := String.mk searchPart }

/-- Break a query pair at its first equals sign; a pair with no equals sign
has the whole text as key and the empty value, as in `URLSearchParams`. -/
def parseQueryPair (pair : List Char) : List Char × List Char :=
  match breakOnSub [eqC] pair with
  | some p => p
  | none => (pair, [])

/-- Model of `url.searchParams.get(key)`: the value of the first
`&`-separated pair whose key matches, or `none`. -/
def getQueryParam (search : String) (key : String) : Option String :=
  (((splitOnChar ampC search.data).filterMap (fun pair =>
      let kv := parseQueryPair pair
      if kv.1 = key.data then some kv.2 else none)).head?).map String.mk

/-- Host name of short YouTube links. -/
def hostYoutuBe : String := "youtu.be"

/-- Canonical YouTube host with the `www` label. -/
def hostWWW : String := "www.youtube.com"

/-- Canonical YouTube host without the `www` label. -/
def hostYT : String := "youtube.com"

/-- Watch-page path. -/
def pathWatch : String := "/watch"

/-- Embed-page path prefix. -/
def pathEmbed : String := "/embed/"

/-- Shorts-page path prefix. -/
def pathShorts : String := "/shorts/"

/-- Query key holding the video ID on the watch page. -/
def keyV : String := "v"

/-- Embedding of `extractVideoId` from `src/index.ts` lines 107-132 (the
part_000 variant is identical).  A JavaScript `null` result is `none`. -/
def extractVideoId (urlOrId : String) : Option String :=
  if urlOrId.length == 0 then none
  else if (urlOrId.length == 11) && !(urlOrId.data.contains slashC)
      && !(urlOrId.data.contains questC) then some urlOrId
  else
    match parseURL urlOrId with
    | none => none
    | some url =>
      if url.hostname = hostYoutuBe then some (String.mk (url.pathname.data.drop 1))
      else if url.hostname = hostWWW ∨ url.hostname = hostYT then
        if url.pathname = pathWatch then getQueryParam url.search keyV
        else if isPrefixL pathEmbed.data url.pathname.data then
          some (String.mk (url.pathname.data.drop pathEmbed.length))
        else if isPrefixL pathShorts.data url.pathname.data then
          some (String.mk (url.pathname.data.drop pathShorts.length))
        else none
      else none

/-- Bare-ID rule of the extractor: an 11-character string without a slash or
a question mark is returned unchanged. -/
theorem extractVideoId_bare_id (s : String) (h1 : s.length = 11)
    (h2 : s.data.contains slashC = false) (h3 : s.data.contains questC = false) :
    extractVideoId s = some s := by
  unfold extractVideoId
  rw [h1, h2, h3]
  simp

/-! ### Claim C8: extractor behaviour on the spec's concrete shapes -/

/-- The sample 11-character ID of the spec. -/
def idXs : String := "XXXXXXXXXXX"

/-- Short-link sample URL. -/
def urlYoutuBe : String := "https://youtu.be/XXXXXXXXXXX"

/-- Watch-page sample URL. -/
def urlWatch : String := "https://www.youtube.com/watch?v=XXXXXXXXXXX"

/-- Embed sample URL on the bare host. -/
def urlEmbed : String := "https://youtube.com/embed/XXXXXXXXXXX"

/-- Shorts sample URL. -/
def urlShorts : String := "https://www.youtube.com/shorts/XXXXXXXXXXX"

/-- A URL on a foreign host, which yields no ID. -/
def urlExample : String := "https://example.com/foo"

/-- C8: bare 11-character strings pass through unchanged, the four
recognized URL shapes yield the embedded ID, and a foreign host fails. -/
theorem extractVideoId_spec_shapes :
    (∀ s : String, s.length = 11 → s.data.contains slashC = false →
      s.data.contains questC = false → extractVideoId s = some s) ∧
    extractVideoId urlYoutuBe = some idXs ∧
    extractVideoId urlWatch = some idXs ∧
    extractVideoId urlEmbed = some idXs ∧
    extractVideoId urlShorts = some idXs ∧
    extractVideoId urlExample = none := by
  refine ⟨fun s h1 h2 h3 => extractVideoId_bare_id s h1 h2 h3, ?_, ?_, ?_, ?_, ?_⟩
  · decide
  · decide
  · decide
  · decide
  · decide

/-- C8 witness: the universal bare-ID conjunct applied at the sample ID. -/
theorem extractVideoId_spec_shapes_witness :
    idXs.length = 11 ∧ extractVideoId idXs = some idXs :=
  ⟨by decide, extractVideoId_spec_shapes.1 idXs (by decide) (by decide) (by decide)⟩

/-! ### Claim C5: successful extraction does not guarantee 11 characters -/

/-- Short-link URL whose path component has only three characters. -/
def urlAbc : String := "https://youtu.be/abc"

/-- The three-character result extracted from `urlAbc`. -/
def strAbc : String := "abc"

/-- C5 counterexample: the extractor succeeds on a short-link URL with a
three-character path, so success does not imply an 11-character result. -/
theorem extractVideoId_short_success :
    extractVideoId urlAbc = some strAbc ∧ ¬ (strAbc.length = 11) := by
  decide

/-- C5 (amended): only the bare-ID rule guarantees an 11-character result
(the input itself); URL-derived results are returned without any length
validation and can have a different length. -/
theorem extractVideoId_success_shapes :
    (∀ s : String, s.length = 11 → s.data.contains slashC = false →
      s.data.contains questC = false → extractVideoId s = some s) ∧
    (∃ u r, extractVideoId u = some r ∧ ¬ (r.length = 11)) := by
  refine ⟨fun s h1 h2 h3 => extractVideoId_bare_id s h1 h2 h3, ⟨urlAbc, strAbc, ?_, ?_⟩⟩
  · decide
  · decide

/-- Sample 11-character video ID. -/
def vidSample : String := "dQw4w9WgXcQ"

/-- C5 witness: the amended theorem's universal part applied at a concrete
bare ID. -/
theorem extractVideoId_success_shapes_witness :
    vidSample.length = 11 ∧ extractVideoId vidSample = some vidSample :=
  ⟨by decide, extractVideoId_success_shapes.1 vidSample (by decide) (by decide) (by decide)⟩

/-! ### Raw transcript segments and their normalization

The interfaces of `src/index.ts` lines 19-59 become structures whose
optional fields are `Option`s.  The loosely typed `AnySegment` union is
embedded as one record `RawSegment` carrying every possible field, which is
what the runtime field probing (`'f' in segment && segment.f`) sees.  A
JavaScript early-return chain becomes a chain of `Option`s combined with
`orO`. -/

/-- One run of formatted text. -/
structure TextRun where
  text : String
deriving DecidableEq

/-- A snippet: optional plain text and optional runs. -/
structure Snippet where
  text : Option String
  runs : Option (List TextRun)
deriving DecidableEq

/-- The `transcript_segment_renderer` payload. -/
structure TranscriptSegmentRenderer where
  snippet : Option Snippet
  text : Option String
  runs : Option (List TextRun)
  start_ms : Option String
  end_ms : Option String
deriving DecidableEq

/-- The inner `cue_renderer` payload. -/
structure CueRendererInner where
  text : Option Snippet
  start_offset_ms : Option String
  duration_ms : Option String
deriving DecidableEq

/-- One element of a cue group's `cues` array. -/
structure CueRendererWrap where
  cue_renderer : Option CueRendererInner
deriving DecidableEq

/-- The `cue_group_renderer` payload. -/
structure CueGroupInner where
  cues : Option (List CueRendererWrap)
deriving DecidableEq

/-- A raw segment as the runtime field probing sees it: any of the fields of
the three `AnySegment` alternatives may be present.  The generic `text`
field may hold a string or a snippet object (`Sum`). -/
structure RawSegment where
  transcript_segment_renderer : Option TranscriptSegmentRenderer
  cue_group_renderer : Option CueGroupInner
  text : Option (Sum String Snippet)
  runs : Option (List TextRun)
  snippet : Option Snippet
  start_ms : Option String
  end_ms : Option String
  duration_ms : Option String
deriving DecidableEq

/-- The normalized output record. -/
structure TranscriptSegment where
  text : String
  offset : ℚ
  duration : ℚ
deriving DecidableEq

/-- The string zero used as the `|| '0'` fallback. -/
def strZero : String := "0"

/-- JavaScript truthiness of an optional string: present and non-empty. -/
def strTruthy : Option String → Bool
  | none => false
  | some s => !(s.isEmpty)

/-- Embedding of `x || '0'` on an optional string field. -/
def jsOrZero : Option String → String
  | none => strZero
  | some s => if s.isEmpty then strZero else s

/-- Keep an optional string only when truthy, as `if (x) return x` does. -/
def truthyOpt : Option String → Option String
  | none => none
  | some s => if s.isEmpty then none else some s

/-- First-hit combination of two early-return alternatives. -/
def orO (a b : Option String) : Option String :=
  match a with
  | some x => some x
  | none => b

/-- Embedding of `runs.map(run => run.text).join('')`. -/
def joinRuns (rs : List TextRun) : String := String.join (rs.map TextRun.text)

/-- Accumulate the numeric value of a digit list. -/
def digitsVal (cs : List Char) : Nat :=
  cs.foldl (fun acc c => acc * 10 + (c.toNat - 48)) 0

/-- Syntactic result of scanning a decimal literal: sign, integer digits,
fraction digits, and whether no digits at all were found. -/
structure FloatRep where
  neg : Bool
  intVal : Nat
  fracVal : Nat
  fracLen : Nat
  nan : Bool
deriving DecidableEq

/-- Scanning stage of the JavaScript `parseFloat` model: optional sign,
integer digits, optional fraction digits, any trailing garbage ignored.
Exponent notation and leading whitespace are outside the model. -/
def parseFloatRep (s : String) : FloatRep :=
  let p : Bool × List Char :=
    match s.data with
    | '-' :: t => (true, t)
    | '+' :: t => (false, t)
    | cs => (false, cs)
  let intPart := p.2.takeWhile Char.isDigit
  let rest := p.2.drop intPart.length
  let fracPart : List Char :=
    match rest with
    | '.' :: t => t.takeWhile Char.isDigit
    | _ => []
  { neg := p.1, intVal := digitsVal intPart, fracVal := digitsVal fracPart,
    fracLen := fracPart.length, nan := intPart.isEmpty && fracPart.isEmpty }

/-- Model of JavaScript `parseFloat` on the simple decimal strings this
server handles.  Inputs on which `parseFloat` yields `NaN` (no digits at
all) are modelled as `0`; no claim depends on them. -/
def parseFloatQ (s : String) : ℚ :=
  let r := parseFloatRep s
  if r.nan then 0
  else
    (if r.neg then (-1 : ℚ) else 1) *
      ((r.intVal : ℚ) + (r.fracVal : ℚ) / ((10 : ℚ) ^ r.fracLen))

/-- Evaluation of the `parseFloat` model on a plain digit string. -/
theorem parseFloatQ_intString (s : String) (n : Nat)
    (h : parseFloatRep s =
      { neg := false, intVal := n, fracVal := 0, fracLen := 0, nan := false }) :
    parseFloatQ s = (n : ℚ) := by
  unfold parseFloatQ
  rw [h]
  norm_num

/-- The renderer-branch early-return chain of `extractTextFromSegment`
(lines 77-80): `snippet?.text` → `text` → `snippet?.runs` joined → `runs`
joined.  An array is truthy even when empty, so a present runs array
returns its join unconditionally. -/
def tsrBranch (tsr : TranscriptSegmentRenderer) : Option String :=
  orO (truthyOpt (tsr.snippet.bind Snippet.text))
    (orO (truthyOpt tsr.text)
      (orO ((tsr.snippet.bind Snippet.runs).map joinRuns)
        (tsr.runs.map joinRuns)))

/-- The cue-branch early-return chain (lines 84-85): `text?.text` →
`text?.runs` joined. -/
def cueBranch (cue : CueRendererInner) : Option String :=
  orO (truthyOpt (cue.text.bind Snippet.text))
    ((cue.text.bind Snippet.runs).map joinRuns)

/-- The generic `text`-field branch (lines 87-94): a falsy string skips the
branch; a snippet object tries `.text` then `.runs` joined and otherwise
falls through. -/
def textFieldBranch : Sum String Snippet → Option String
  | Sum.inl s => if s.isEmpty then none else some s
  | Sum.inr sn => orO (truthyOpt sn.text) (sn.runs.map joinRuns)

/-- The trailing `snippet`-field branch (lines 98-102). -/
def snippetBranch (sn : Snippet) : Option String :=
  orO (truthyOpt sn.text) (sn.runs.map joinRuns)

/-- Embedding of `segment.cue_group_renderer?.cues?.[0]?.cue_renderer`. -/
def firstCue (seg : RawSegment) : Option CueRendererInner :=
  ((seg.cue_group_renderer.bind CueGroupInner.cues).bind List.head?).bind
    CueRendererWrap.cue_renderer

/-- Embedding of `extractTextFromSegment` from `src/index.ts` lines 74-104.
Each guarded block that fails all its inner early returns falls through to
the next block; the final fallback is the empty string. -/
def extractTextFromSegment (seg : RawSegment) : String :=
  Option.getD
    (orO (seg.transcript_segment_renderer.bind tsrBranch)
      (orO ((firstCue seg).bind cueBranch)
        (orO (seg.text.bind textFieldBranch)
          (orO (seg.runs.map joinRuns)
            (seg.snippet.bind snippetBranch)))))
    strEmpty

/-- The handler's renderer branch passes the inner `tsr` object itself to
`extractTextFromSegment` (line 242), so the inner object is re-viewed as a
raw segment: its `text` field is a plain string, and it carries no
`transcript_segment_renderer`, `cue_group_renderer` or `duration_ms`. -/
def tsrToRaw (tsr : TranscriptSegmentRenderer) : RawSegment :=
  { transcript_segment_renderer := none, cue_group_renderer := none,
    text := tsr.text.map Sum.inl, runs := tsr.runs, snippet := tsr.snippet,
    start_ms := tsr.start_ms, end_ms := tsr.end_ms, duration_ms := none }

/-- The handler's cue branch likewise passes the inner cue object to
`extractTextFromSegment` (line 247); its `text` field is a snippet
object. -/
def cueToRaw (cue : CueRendererInner) : RawSegment :=
  { transcript_segment_renderer := none, cue_group_renderer := none,
    text := cue.text.map Sum.inr, runs := none, snippet := none,
    start_ms := none, end_ms := none, duration_ms := cue.duration_ms }

/-- Embedding of the per-segment normalization of the `src/index.ts`
request handler, lines 235-257.  Note the generic branch consults only
`start_ms` and `end_ms`, never `duration_ms`. -/
def normalizeSegment (seg : RawSegment) : TranscriptSegment :=
  match seg.transcript_segment_renderer with
  | some tsr =>
    { text := decodeHtmlEntities (some (extractTextFromSegment (tsrToRaw tsr))),
      offset := parseFloatQ (jsOrZero tsr.start_ms) / 1000,
      duration :=
        (parseFloatQ (jsOrZero tsr.end_ms) - parseFloatQ (jsOrZero tsr.start_ms)) / 1000 }
  | none =>
    match firstCue seg with
    | some cue =>
      { text := decodeHtmlEntities (some (extractTextFromSegment (cueToRaw cue))),
        offset := parseFloatQ (jsOrZero cue.start_offset_ms) / 1000,
        duration := parseFloatQ (jsOrZero cue.duration_ms) / 1000 }
    | none =>
      { text := decodeHtmlEntities (some (extractTextFromSegment seg)),
        offset :=
          if strTruthy seg.start_ms then parseFloatQ (Option.getD seg.start_ms strZero) / 1000
          else 0,
        duration :=
          if strTruthy seg.end_ms && strTruthy seg.start_ms then
            (parseFloatQ (Option.getD seg.end_ms strZero) -
              parseFloatQ (Option.getD seg.start_ms strZero)) / 1000
          else 0 }

/-- Embedding of the per-segment normalization of the `src/unnamed/part_000`
request handler, lines 157-188.  It differs from `normalizeSegment` only in
the generic branch, where `duration_ms` takes precedence for the duration.
The `typeof x === 'string'` guards of the source are identities here since
the embedded fields are typed strings. -/
def normalizeSegmentV0 (seg : RawSegment) : TranscriptSegment :=
  match seg.transcript_segment_renderer with
  | some tsr =>
    { text := decodeHtmlEntities (some (extractTextFromSegment (tsrToRaw tsr))),
      offset := parseFloatQ (jsOrZero tsr.start_ms) / 1000,
      duration :=
        (parseFloatQ (jsOrZero tsr.end_ms) - parseFloatQ (jsOrZero tsr.start_ms)) / 1000 }
  | none =>
    match firstCue seg with
    | some cue =>
      { text := decodeHtmlEntities (some (extractTextFromSegment (cueToRaw cue))),
        offset := parseFloatQ (jsOrZero cue.start_offset_ms) / 1000,
        duration := parseFloatQ (jsOrZero cue.duration_ms) / 1000 }
    | none =>
      { text := decodeHtmlEntities (some (extractTextFromSegment seg)),
        offset :=
          if strTruthy seg.start_ms then parseFloatQ (Option.getD seg.start_ms strZero) / 1000
          else 0,
        duration :=
          if strTruthy seg.duration_ms then
            parseFloatQ (Option.getD seg.duration_ms strZero) / 1000
          else if strTruthy seg.end_ms && strTruthy seg.start_ms then
            (parseFloatQ (Option.getD seg.end_ms strZero) -
              parseFloatQ (Option.getD seg.start_ms strZero)) / 1000
          else 0 }

/-- Embedding of `segments.map(...).filter(s => s.text)` (line 258):
normalize every raw segment, then drop the ones whose text is empty. -/
def formatSegments (segs : List RawSegment) : List TranscriptSegment :=
  (segs.map normalizeSegment).filter (fun s => !(s.text.isEmpty))

/-- A parsed subtitle cue as returned by the `node-webvtt` parser (its
`end` field is named `endSec` here because `end` is reserved). -/
structure Cue where
  text : String
  start : ℚ
  endSec : ℚ
deriving DecidableEq

/-- Embedding of the cue mapping of `fetchTranscriptWithYtDlp`, lines
188-192: every cue is mapped, with no filtering of empty text. -/
def ytDlpCuesToSegments (cues : List Cue) : List TranscriptSegment :=
  cues.map (fun c => { text := c.text, offset := c.start, duration := c.endSec - c.start })

/-! ### Claim C2: generic-shape timing derivation -/

/-- Sample generic text. -/
def strHi : String := "hi"

/-- Sample duration in milliseconds. -/
def msDur : String := "2000"

/-- Sample start in milliseconds. -/
def msStart : String := "1000"

/-- Sample end in milliseconds. -/
def msEnd : String := "4000"

/-- A generic-shape segment carrying only text and `duration_ms`. -/
def segDurOnly : RawSegment :=
  { transcript_segment_renderer := none, cue_group_renderer := none,
    text := some (Sum.inl strHi), runs := none, snippet := none,
    start_ms := none, end_ms := none, duration_ms := some msDur }

/-- Evaluation of the `parseFloat` model at the sample duration string. -/
theorem parseFloatQ_msDur : parseFloatQ msDur = 2000 :=
  parseFloatQ_intString msDur 2000 (by decide)

/-- Evaluation of the `parseFloat` model at the sample start string. -/
theorem parseFloatQ_msStart : parseFloatQ msStart = 1000 :=
  parseFloatQ_intString msStart 1000 (by decide)

/-- Evaluation of the `parseFloat` model at the sample end string. -/
theorem parseFloatQ_msEnd : parseFloatQ msEnd = 4000 :=
  parseFloatQ_intString msEnd 4000 (by decide)

/-- C2 counterexample: in `src/index.ts` the generic branch ignores
`duration_ms`, so a segment carrying `duration_ms = "2000"` and no
start/end is normalized with duration `0`, not `2`. -/
theorem generic_duration_ms_ignored :
    (normalizeSegment segDurOnly).duration = 0 ∧
    ¬ ((normalizeSegment segDurOnly).duration = parseFloatQ msDur / 1000) := by
  have h0 : (normalizeSegment segDurOnly).duration = 0 := by decide
  refine ⟨h0, ?_⟩
  rw [h0, parseFloatQ_msDur]
  norm_num

/-- C2 (amended): for generic-shape segments, the `src/index.ts` handler
derives offset from `start_ms` alone and duration from `end_ms − start_ms`
alone (never from `duration_ms`), while the `part_000` variant implements
the claimed rule with `duration_ms` taking precedence. -/
theorem generic_branch_timing (seg : RawSegment)
    (h1 : seg.transcript_segment_renderer = none) (h2 : firstCue seg = none) :
    (normalizeSegment seg).offset =
      (if strTruthy seg.start_ms then parseFloatQ (Option.getD seg.start_ms strZero) / 1000
       else 0) ∧
    (normalizeSegment seg).duration =
      (if strTruthy seg.end_ms && strTruthy seg.start_ms then
        (parseFloatQ (Option.getD seg.end_ms strZero) -
          parseFloatQ (Option.getD seg.start_ms strZero)) / 1000
       else 0) ∧
    (normalizeSegmentV0 seg).duration =
      (if strTruthy seg.duration_ms then parseFloatQ (Option.getD seg.duration_ms strZero) / 1000
       else if strTruthy seg.end_ms && strTruthy seg.start_ms then
        (parseFloatQ (Option.getD seg.end_ms strZero) -
          parseFloatQ (Option.getD seg.start_ms strZero)) / 1000
       else 0) := by
  unfold normalizeSegment normalizeSegmentV0
  rw [h1, h2]
  exact ⟨rfl, rfl, rfl⟩

/-- A generic-shape segment carrying `start_ms`, `end_ms` and `duration_ms`
all at once, separating the two variants. -/
def segAllMs : RawSegment :=
  { transcript_segment_renderer := none, cue_group_renderer := none,
    text := some (Sum.inl strHi), runs := none, snippet := none,
    start_ms := some msStart, end_ms := some msEnd, duration_ms := some msDur }

/-- C2 witness: at the concrete all-fields segment, the `src/index.ts`
variant computes duration 3 (from end − start) and the `part_000` variant
computes duration 2 (from `duration_ms`). -/
theorem generic_branch_timing_witness :
    (normalizeSegment segAllMs).duration = 3 ∧ (normalizeSegmentV0 segAllMs).duration = 2 := by
  have h := generic_branch_timing segAllMs rfl rfl
  have hes : Option.getD segAllMs.end_ms strZero = msEnd := by decide
  have hss : Option.getD segAllMs.start_ms strZero = msStart := by decide
  have hds : Option.getD segAllMs.duration_ms strZero = msDur := by decide
  have hc : (strTruthy segAllMs.end_ms && strTruthy segAllMs.start_ms) = true := by decide
  have hd : strTruthy segAllMs.duration_ms = true := by decide
  refine ⟨?_, ?_⟩
  · rw [h.2.1, if_pos hc, hes, hss, parseFloatQ_msEnd, parseFloatQ_msStart]
    norm_num
  · rw [h.2.2, if_pos hd, hds, parseFloatQ_msDur]
    norm_num

/-! ### Claim C3: renderer-branch text priority -/

/-- Sample snippet text. -/
def strA : String := "A"

/-- Sample top-level text. -/
def strB : String := "B"

/-- Sample end in milliseconds for the renderer example. -/
def msEnd25 : String := "2500"

/-- A renderer payload carrying both `snippet.text` and a top-level `text`. -/
def tsrC3 : TranscriptSegmentRenderer :=
  { snippet := some { text := some strA, runs := none }, text := some strB, runs := none,
    start_ms := some msStart, end_ms := some msEnd25 }

/-- A raw segment wrapping `tsrC3`. -/
def segC3 : RawSegment :=
  { transcript_segment_renderer := some tsrC3, cue_group_renderer := none, text := none,
    runs := none, snippet := none, start_ms := none, end_ms := none, duration_ms := none }

/-- C3 counterexample: on a renderer segment with both `snippet.text = "A"`
and `text = "B"`, the handler emits `"B"`, not the claimed
snippet-first `"A"`. -/
theorem renderer_text_priority_counterexample :
    (normalizeSegment segC3).text = strB ∧ ¬ (strB = strA) := by
  decide

/-- C3 (amended): the handler's renderer branch passes the inner renderer
object back through `extractTextFromSegment`, where it matches the generic
shape, so the effective text priority is `text` (non-empty string) → `runs`
joined → `snippet.text` → `snippet.runs` joined; offset is
`start_ms / 1000` and duration is `(end_ms − start_ms) / 1000`, with
missing ms fields read as `"0"`. -/
theorem renderer_branch_semantics (seg : RawSegment) (tsr : TranscriptSegmentRenderer)
    (h : seg.transcript_segment_renderer = some tsr) :
    normalizeSegment seg =
      { text := decodeHtmlEntities (some (extractTextFromSegment (tsrToRaw tsr))),
        offset := parseFloatQ (jsOrZero tsr.start_ms) / 1000,
        duration :=
          (parseFloatQ (jsOrZero tsr.end_ms) - parseFloatQ (jsOrZero tsr.start_ms)) / 1000 } ∧
    (∀ t, tsr.text = some t → t.isEmpty = false →
      extractTextFromSegment (tsrToRaw tsr) = t) ∧
    (∀ rs, strTruthy tsr.text = false → tsr.runs = some rs →
      extractTextFromSegment (tsrToRaw tsr) = joinRuns rs) ∧
    (∀ sn t, strTruthy tsr.text = false → tsr.runs = none → tsr.snippet = some sn →
      sn.text = some t → t.isEmpty = false →
      extractTextFromSegment (tsrToRaw tsr) = t) ∧
    (∀ sn rs, strTruthy tsr.text = false → tsr.runs = none → tsr.snippet = some sn →
      strTruthy sn.text = false → sn.runs = some rs →
      extractTextFromSegment (tsrToRaw tsr) = joinRuns rs) := by
  refine ⟨?_, ?_, ?_, ?_, ?_⟩
  · unfold normalizeSegment
    rw [h]
  · intro t ht hne
    simp [extractTextFromSegment, tsrToRaw, firstCue, orO, textFieldBranch, ht, hne]
  · intro rs htx hr
    cases ht : tsr.text with
    | none =>
      simp [extractTextFromSegment, tsrToRaw, firstCue, orO, textFieldBranch, ht, hr]
    | some s =>
      have hse : s.isEmpty = true := by
        have := htx
        rw [ht] at this
        simpa [strTruthy] using this
      simp [extractTextFromSegment, tsrToRaw, firstCue, orO, textFieldBranch, ht, hse, hr]
  · intro sn t htx hr hsn hst hne
    cases ht : tsr.text with
    | none =>
      simp [extractTextFromSegment, tsrToRaw, firstCue, orO, textFieldBranch, snippetBranch,
        truthyOpt, ht, hr, hsn, hst, hne]
    | some s =>
      have hse : s.isEmpty = true := by
        have := htx
        rw [ht] at this
        simpa [strTruthy] using this
      simp [extractTextFromSegment, tsrToRaw, firstCue, orO, textFieldBranch, snippetBranch,
        truthyOpt, ht, hse, hr, hsn, hst, hne]
  · intro sn rs htx hr hsn hst hrs
    have hsnt : ∀ u, sn.text = some u → u.isEmpty = true := by
      intro u hu
      have := hst
      rw [hu] at this
      simpa [strTruthy] using this
    cases ht : tsr.text with
    | none =>
      cases hu : sn.text with
      | none =>
        simp [extractTextFromSegment, tsrToRaw, firstCue, orO, textFieldBranch, snippetBranch,
          truthyOpt, ht, hr, hsn, hu, hrs]
      | some u =>
        have := hsnt u hu
        simp [extractTextFromSegment, tsrToRaw, firstCue, orO, textFieldBranch, snippetBranch,
          truthyOpt, ht, hr, hsn, hu, hrs, this]
    | some s =>
      have hse : s.isEmpty = true := by
        have := htx
        rw [ht] at this
        simpa [strTruthy] using this
      cases hu : sn.text with
      | none =>
        simp [extractTextFromSegment, tsrToRaw, firstCue, orO, textFieldBranch, snippetBranch,
          truthyOpt, ht, hse, hr, hsn, hu, hrs]
      | some u =>
        have := hsnt u hu
        simp [extractTextFromSegment, tsrToRaw, firstCue, orO, textFieldBranch, snippetBranch,
          truthyOpt, ht, hse, hr, hsn, hu, hrs, this]

/-- C3 witness: applying the amended renderer-branch theorem at the
concrete segment shows the emitted text is the top-level `text` field. -/
theorem renderer_branch_semantics_witness :
    extractTextFromSegment (tsrToRaw tsrC3) = strB :=
  (renderer_branch_semantics segC3 tsrC3 rfl).2.1 strB rfl (by decide)

/-! ### The request handler

The `app.get('/')` handler of `src/index.ts` lines 202-297 is embedded as a
pure function of the outcomes of its two effectful phases.  The inner
Innertube `try` block leaves behind a title variable and a formatted
transcript; we summarize it as the title string it assigned (defaulting to
`"Untitled Video"`) together with an `Except` that is `ok (some segs)`
when transcript data with `initial_segments` was returned, `ok none` when
the nested path was absent, and `error` when the block threw (in which
case the formatted transcript stays empty, because the inner `catch`
swallows the exception).  The yt-dlp fallback is an `Except` over cue
lists whose `error` stands for any throw out of
`fetchTranscriptWithYtDlp`. -/

/-- JSON body of a response; exactly the fields this server ever emits. -/
structure JsonBody where
  error : Option String
  videoId : Option String
  videoTitle : Option String
  transcript : Option (List TranscriptSegment)
deriving DecidableEq

/-- A response: status code plus JSON body. -/
structure HttpResponse where
  status : Nat
  body : JsonBody
deriving DecidableEq

/-- Missing-input error message (line 206). -/
def errMissing : String := "Video ID or URL is required (query param: 'id')"

/-- Invalid-format error message (line 212). -/
def errInvalid : String := "Invalid YouTube Video ID or URL format"

/-- No-transcript 404 message (line 279). -/
def errNoTranscript : String := "No transcript available for this video."

/-- Not-available 404 message of the top-level catch (line 291). -/
def errNotAvailable : String := "Transcripts are not available for this video."

/-- Generic failure message of the top-level catch (line 287). -/
def errFailed : String := "Failed to fetch transcript."

/-- Message of the error rethrown when the fallback throws (line 274). -/
def errBothSources : String := "Failed to fetch transcript from both sources."

/-- Substring the top-level catch looks for (line 290). -/
def msgNoTranscriptFound : String := "No transcript found"

/-- Default video title (line 218). -/
def titleUntitled : String := "Untitled Video"

/-- The 400 response for a missing `id` parameter. -/
def missingInputResp : HttpResponse :=
  { status := 400,
    body := { error := some errMissing, videoId := none, videoTitle := none,
              transcript := none } }

/-- The 400 response for an unrecognized `id` value. -/
def invalidFormatResp : HttpResponse :=
  { status := 400,
    body := { error := some errInvalid, videoId := none, videoTitle := none,
              transcript := none } }

/-- Embedding of `message.includes(pattern)`. -/
def strContainsSub (s pat : String) : Bool := occursIn pat.data s.data

/-- Embedding of the top-level catch (lines 284-296): 404 when the escaped
error message contains the yt-dlp marker, 500 otherwise; both echo the
video ID. -/
def topLevelCatch (videoId msg : String) : HttpResponse :=
  if strContainsSub msg msgNoTranscriptFound then
    { status := 404,
      body := { error := some errNotAvailable, videoId := some videoId,
                videoTitle := none, transcript := none } }
  else
    { status := 500,
      body := { error := some errFailed, videoId := some videoId,
                videoTitle := none, transcript := none } }

/-- The formatted transcript left behind by the Innertube phase: segments
are normalized and filtered when the nested path was present, and the
empty list both when it was absent and when the block threw. -/
def primaryFormatted (primary : Except String (Option (List RawSegment))) :
    List TranscriptSegment :=
  match primary with
  | Except.ok (some segs) => formatSegments segs
  | Except.ok none => []
  | Except.error _ => []

/-- Embedding of the handler from line 266 on: if the primary transcript is
empty, run the fallback, whose own throw is re-raised as the
both-sources error (line 274) and lands in the top-level catch; a
transcript still empty yields the 404 of line 279 (whose body carries the
title, not the video ID); otherwise the 200 of line 282. -/
def handleFetchPhase (videoId videoTitle : String)
    (primary : Except String (Option (List RawSegment)))
    (fallback : Except String (List Cue)) : HttpResponse :=
  let formatted := primaryFormatted primary
  let afterFallback : Except String (List TranscriptSegment) :=
    if formatted.isEmpty then
      match fallback with
      | Except.ok cues => Except.ok (ytDlpCuesToSegments cues)
      | Except.error _ => Except.error errBothSources
    else Except.ok formatted
  match afterFallback with
  | Except.error msg => topLevelCatch videoId msg
  | Except.ok ts =>
    if ts.isEmpty then
      { status := 404,
        body := { error := some errNoTranscript, videoId := none,
                  videoTitle := some videoTitle, transcript := none } }
    else
      { status := 200,
        body := { error := none, videoId := none,
                  videoTitle := some (decodeHtmlEntities (some videoTitle)),
                  transcript := some ts } }

/-- Embedding of the whole handler (lines 202-297).  The `id` query
parameter is `none` when absent; the guard `if (!videoUrlOrId)` also
fires on the present-but-empty string. -/
def handleRequest (idParam : Option String) (videoTitle : String)
    (primary : Except String (Option (List RawSegment)))
    (fallback : Except String (List Cue)) : HttpResponse :=
  match idParam with
  | none => missingInputResp
  | some s =>
    if s.isEmpty then missingInputResp
    else
      match extractVideoId s with
      | none => invalidFormatResp
      | some vid => handleFetchPhase vid videoTitle primary fallback

/-! ### Claim C1: what a failing fallback produces -/

/-- Sample error message of a crashed yt-dlp invocation. -/
def errBoom : String := "yt-dlp exited with code 1"

/-- C1 counterexample: with an empty primary result and a throwing
fallback, the handler answers 500, not the claimed 404 — the fallback
path's catch rethrows instead of returning an empty result. -/
theorem fallback_throw_counterexample :
    (handleRequest (some vidSample) titleUntitled (Except.ok (some []))
      (Except.error errBoom)).status = 500 ∧
    ¬ ((handleRequest (some vidSample) titleUntitled (Except.ok (some []))
      (Except.error errBoom)).status = 404) := by
  decide

/-- C1 (amended): after an empty primary result, a fallback that returns
zero segments yields 404 with the curated message and the video title (no
echoed video ID), while a fallback that throws is rethrown as the
both-sources error and yields 500 with the generic message and the echoed
video ID. -/
theorem fallback_outcome_mapping (vid title : String)
    (primary : Except String (Option (List RawSegment)))
    (hp : primaryFormatted primary = []) :
    handleFetchPhase vid title primary (Except.ok []) =
      { status := 404,
        body := { error := some errNoTranscript, videoId := none,
                  videoTitle := some title, transcript := none } } ∧
    (∀ e, handleFetchPhase vid title primary (Except.error e) =
      { status := 500,
        body := { error := some errFailed, videoId := some vid,
                  videoTitle := none, transcript := none } }) := by
  have hc : strContainsSub errBothSources msgNoTranscriptFound = false := by decide
  constructor
  · simp [handleFetchPhase, hp, ytDlpCuesToSegments]
  · intro e
    simp [handleFetchPhase, topLevelCatch, hp, hc]

/-- Sample error message of an unreachable network. -/
def errBoom2 : String := "network unreachable"

/-- C1 witness: the amended mapping applied at a concrete video ID, title
and primary outcome. -/
theorem fallback_outcome_mapping_witness :
    handleFetchPhase vidSample titleUntitled (Except.ok none) (Except.ok []) =
      { status := 404,
        body := { error := some errNoTranscript, videoId := none,
                  videoTitle := some titleUntitled, transcript := none } } ∧
    handleFetchPhase vidSample titleUntitled (Except.ok none) (Except.error errBoom2) =
      { status := 500,
        body := { error := some errFailed, videoId := some vidSample,
                  videoTitle := none, transcript := none } } :=
  ⟨(fallback_outcome_mapping vidSample titleUntitled (Except.ok none) rfl).1,
   (fallback_outcome_mapping vidSample titleUntitled (Except.ok none) rfl).2 errBoom2⟩

/-! ### Claim C9: a present-but-empty id parameter -/

/-- C9: a request whose `id` parameter is the empty string gets the
missing-input 400 response, which is distinct from the invalid-format 400
response, because the presence check treats the empty string as absent. -/
theorem empty_id_gives_missing_input (title : String)
    (primary : Except String (Option (List RawSegment)))
    (fallback : Except String (List Cue)) :
    handleRequest (some strEmpty) title primary fallback = missingInputResp ∧
    missingInputResp.body.error = some errMissing ∧
    ¬ (missingInputResp = invalidFormatResp) := by
  exact ⟨rfl, rfl, by decide⟩

/-! ### Claim C4: emitted segments and empty text -/

/-- A subtitle cue whose payload text is empty. -/
def cueEmptyText : Cue := { text := strEmpty, start := 0, endSec := 1 }

/-- C4 counterexample: a fallback cue with empty text reaches the 200
response unfiltered, so a successful response can contain a segment whose
text is the empty string. -/
theorem fallback_empty_text_emitted :
    (handleRequest (some vidSample) titleUntitled (Except.ok none)
      (Except.ok [cueEmptyText])).status = 200 ∧
    Option.map (List.map TranscriptSegment.text)
      (handleRequest (some vidSample) titleUntitled (Except.ok none)
        (Except.ok [cueEmptyText])).body.transcript = some [strEmpty] := by
  decide

/-- C4 (amended): segments produced by the primary path are filtered, so
every one of them has non-empty text; the fallback path maps its cues
one-to-one with no filter, so it emits exactly as many segments as there
are cues, empty-text cues included, and no sign constraint is enforced on
offsets or durations. -/
theorem emitted_text_filter_primary_only :
    (∀ (segs : List RawSegment) (s : TranscriptSegment),
      s ∈ formatSegments segs → ¬ (s.text = strEmpty)) ∧
    (∀ cues : List Cue, (ytDlpCuesToSegments cues).length = cues.length) := by
  constructor
  · intro segs s h heq
    unfold formatSegments at h
    rw [List.mem_filter] at h
    have hb := h.2
    simp only [heq] at hb
    exact absurd hb (by decide)
  · intro cues
    unfold ytDlpCuesToSegments
    rw [List.length_map]

/-- A generic raw segment with plain non-empty text. -/
def rawHi : RawSegment :=
  { transcript_segment_renderer := none, cue_group_renderer := none,
    text := some (Sum.inl strHi), runs := none, snippet := none,
    start_ms := none, end_ms := none, duration_ms := none }

/-- The normalized form of `rawHi`. -/
def segHi : TranscriptSegment := { text := strHi, offset := 0, duration := 0 }

/-- C4 witness: the amended theorem applied at a concrete normalized
segment and a concrete single-cue fallback list. -/
theorem emitted_text_filter_primary_only_witness :
    segHi ∈ formatSegments [rawHi] ∧ ¬ (segHi.text = strEmpty) ∧
    (ytDlpCuesToSegments [cueEmptyText]).length = 1 :=
  ⟨by decide, emitted_text_filter_primary_only.1 [rawHi] segHi (by decide),
   emitted_text_filter_primary_only.2 [cueEmptyText]⟩

end YTA
